import Mathlib

/-!
Verification development for the decision-engine core of the
th8-dcc-backend-v2 procurement backend.

The definitions below are a shallow embedding of
`app/services/decision_engine.py` (the `DecisionEngine` pipeline with its
four nodes and the helpers `_safe_compare` and `_derive_required_role`)
and of the risk-derivation helpers of `app/api/decisions.py`
(`collect_risk_drivers`, `derive_risk_from_drivers`,
`apply_threshold_safety_net`).

Modelling conventions:
* Python scalar values flowing through rule conditions are embedded as
  `Value` (None, bool, number, string, list).  Python numbers (int and
  float alike) are embedded as `ℚ`; Python `bool` participates in numeric
  comparison and equality with its int coercion (True = 1, False = 0),
  exactly as in CPython.
* Dictionaries with a fixed shape read by the engine (policy documents,
  the contract reference object, line items) are embedded as structures
  whose optional keys are `Option` fields; a `dict.get(k)` read is the
  `Option` value, a `dict[k]` read on a possibly missing key is modelled
  explicitly as a raised `KeyError`.
* Code paths that raise (`KeyError`, `NameError`, `ValueError`) are
  embedded with `Except String`; the error string names the Python
  exception.  Caught exceptions (`try/except`) are local `Option`
  plumbing and do not surface.
-/

/- Batteries marks the `Rat` field operations `@[irreducible]`, which
blocks elaborator-side definitional evaluation of concrete engine runs;
restoring the default reducibility lets `rfl`/`decide` evaluate them.
This is an elaboration hint only — kernel checking is unaffected. -/
set_option allowUnsafeReducibility true
attribute [semireducible] Rat.mul Rat.add Rat.sub Rat.div Rat.inv

namespace DCC

/-- Embedded Python scalar value as it appears in rule conditions,
engine inputs and result payloads. -/
inductive Value where
  | none
  | bool (b : Bool)
  | num (q : ℚ)
  | str (s : String)
  | list (vs : List Value)

/-- Python `is None` identity test. -/
def isNoneV : Value → Bool
  | .none => true
  | _ => false

/-- Numeric view of a value: Python `bool` is an `int` subclass, so
`True` compares like `1` and `False` like `0`. -/
def toNumQ : Value → Option ℚ
  | .bool b => some (if b then 1 else 0)
  | .num q => some q
  | _ => Option.none

mutual

/-- Python `==` on embedded values: never raises, numeric cross-type
equality through `toNumQ`, structural equality on lists, `False` between
unrelated types. -/
def pyEq : Value → Value → Bool
  | .none, .none => true
  | .str a, .str b => a == b
  | .list a, .list b => pyEqList a b
  | a, b =>
    match toNumQ a, toNumQ b with
    | some x, some y => x == y
    | _, _ => false

def pyEqList : List Value → List Value → Bool
  | [], [] => true
  | a :: as, b :: bs => pyEq a b && pyEqList as bs
  | _, _ => false

end

mutual

/-- Python `<` on embedded values; `Option.none` models a `TypeError`
(incomparable operand types). Lists compare lexicographically with
element `==` / `<`, as in CPython. -/
def pyLt : Value → Value → Option Bool
  | .str a, .str b => some (decide (a < b))
  | .list a, .list b => pyLtList a b
  | a, b =>
    match toNumQ a, toNumQ b with
    | some x, some y => some (decide (x < y))
    | _, _ => Option.none

def pyLtList : List Value → List Value → Option Bool
  | [], [] => some false
  | [], _ :: _ => some true
  | _ :: _, [] => some false
  | a :: as, b :: bs => if pyEq a b then pyLtList as bs else pyLt a b

end

/-- Python `<=` on embedded values; `Option.none` models a `TypeError`.
For lists, `a <= b` is `¬ (b < a)` under the lexicographic order. -/
def pyLe : Value → Value → Option Bool
  | .str a, .str b => some (decide (a ≤ b))
  | .list a, .list b => (pyLtList b a).map (fun r => !r)
  | a, b =>
    match toNumQ a, toNumQ b with
    | some x, some y => some (decide (x ≤ y))
    | _, _ => Option.none

/-- Substring test used by Python `in` on strings (`needle in hay`). -/
def strContainsSub (hay needle : String) : Bool :=
  (List.range (hay.data.length + 1)).any
    (fun i => needle.data.isPrefixOf (hay.data.drop i))

/-- Python `a in e`; `Option.none` models a `TypeError` (container type
does not support membership for the operand). -/
def pyIn (a e : Value) : Option Bool :=
  match e with
  | .list vs => some (vs.any (fun v => pyEq v a))
  | .str hay =>
    match a with
    | .str needle => some (strContainsSub hay needle)
    | _ => Option.none
  | _ => Option.none

/-- Embedding of `_safe_compare(actual, operator, expected)` from
`app/services/decision_engine.py`: the `actual is None` guard, the
nine-operator dispatch, the `try/except TypeError` that converts an
incomparable pair into `False`, and the final `return False` for an
unrecognized operator.  Total by construction — the embedding of the
fact that the Python function never raises. -/
def _safe_compare (actual : Value) (operator : String) (expected : Value) : Bool :=
  if isNoneV actual then false
  else
    let r : Option Bool :=
      if operator == ">" then pyLt expected actual
      else if operator == ">=" then pyLe expected actual
      else if operator == "<" then pyLt actual expected
      else if operator == "<=" then pyLe actual expected
      else if operator == "==" then some (pyEq actual expected)
      else if operator == "!=" then some (!(pyEq actual expected))
      else if operator == "in" then pyIn actual expected
      else if operator == "not_in" then (pyIn actual expected).map (fun b => !b)
      else if operator == "contains" then pyIn expected actual
      else some false
    r.getD false

/-- The operator strings `_safe_compare` recognizes. -/
def knownOperators : List String :=
  [">", ">=", "<", "<=", "==", "!=", "in", "not_in", "contains"]

/-- The four ordering operators (the ones whose Python comparison can
raise `TypeError` on mixed operand types). -/
def orderOperators : List String := [">", ">=", "<", "<="]

example : _safe_compare (Value.num 387500) ">" (Value.num 200000) = true := by decide
example : _safe_compare Value.none ">" (Value.num 5) = false := by decide
example : _safe_compare (Value.num 3) "weird" (Value.num 1) = false := by decide
example : _safe_compare (Value.num 3) ">" (Value.str "a") = false := by decide
example : _safe_compare (Value.str "ACTIVE") "==" (Value.str "ACTIVE") = true := by decide
example : _safe_compare (Value.str "b") "in" (Value.list [Value.str "a", Value.str "b"]) = true := by decide
example : _safe_compare (Value.bool true) "==" (Value.num 1) = true := by decide

/-! ## Policy and input data model -/

/-- One entry of a rule's `when` list: `{field, operator, value}`. -/
structure Condition where
  field : String
  operator : String
  value : Value

/-- A policy rule as read by the engine.  Keys read with `rule.get(...)`
are `Option` fields; `rule["id"]` is read unconditionally, so `id` is a
required field.  `then_decision` is `r.get("then", {}).get("decision")`. -/
structure Rule where
  id : String
  description : Option String := Option.none
  type : Option String := Option.none
  is_active : Option Bool := Option.none
  when : List Condition := []
  then_decision : Option String := Option.none
  risk_impact : Option String := Option.none

/-- One entry of `policy["authority"]["rules"]`; both keys are read with
bracket access in `_derive_required_role`. -/
structure AuthorityRule where
  condition : String
  required_role : String

/-- Embedding of `policy.get("contract_compliance", {})` with the `.get` defaults the
contract node applies (`validity_check`/`price_check` truthiness,
`max_allowed_variance_pct` default `0.0`). -/
structure ContractCompliance where
  validity_check : Bool := false
  price_check : Bool := false
  max_allowed_variance_pct : ℚ := 0

/-- The policy document fields the evaluation core reads.
`thresholds_high`/`thresholds_medium` embed
`policy.get("thresholds", {}).get("amount", {}).get("high"/"medium")`,
and `config_*` embed `policy.get("config", {}).get(...)` from
`app/api/decisions.py`. -/
structure Policy where
  rules : List Rule := []
  authority_rules : List AuthorityRule := []
  contract_compliance : ContractCompliance := {}
  thresholds_high : Option ℚ := Option.none
  thresholds_medium : Option ℚ := Option.none
  config_high_risk_threshold : Option ℚ := Option.none
  config_force_risk_level : Option String := Option.none

/-- One entry of the contract's `contract_items` price map.  The uninterpreted
`evidence` payload (copied verbatim into the variance snapshot) is not
modelled. -/
structure ContractItem where
  price : Option ℚ := Option.none

/-- The contract reference object found at `inputs["contract"]`.
`contract_items` is read with bracket access (`contract_data["contract_items"]`),
so a missing key is a `KeyError`; the other keys use `.get`. -/
structure Contract where
  doc_id : Option String := Option.none
  is_active : Option Bool := Option.none
  contract_items : Option (List (String × ContractItem)) := Option.none
  end_date : Option String := Option.none

/-- One purchase-order line item as read by the contract node. -/
structure LineItem where
  sku : Option String := Option.none
  unit_price : Option ℚ := Option.none
  currency : Option String := Option.none

/-- The engine's input map.  Scalar fields addressed by rule conditions
and authority conditions live in the `fields` association list
(`inputs.get(field)`); the two structured entries the contract node
reads, `inputs.get("contract")` and `inputs.get("line_items", [])`, are
embedded as typed fields. -/
structure Inputs where
  fields : List (String × Value) := []
  contract : Option Contract := Option.none
  line_items : List LineItem := []

/-- Python `dict` lookup over the association-list embedding (first
binding wins; callers that need last-write-wins reverse first). -/
def alookup {α : Type} : List (String × α) → String → Option α
  | [], _ => Option.none
  | p :: rest, k => if p.1 = k then some p.2 else alookup rest k

/-- Embedding of `inputs.get(field)`: `None` when the key is absent. -/
def lookupField (inputs : Inputs) (f : String) : Value :=
  match alookup inputs.fields f with
  | some v => v
  | Option.none => Value.none

/-! ## Rule results -/

/-- One element of a result's `matched` list.  The two extra keys only
the contract-variance entries carry (`variance_pct`, `note`) are
`Option` fields left empty elsewhere. -/
structure MatchedCond where
  field : String
  operator : String
  expected : Value
  actual : Value
  variance_pct : Option ℚ := Option.none
  note : Option String := Option.none

/-- The per-SKU entry of the variance rule's `inputs_snapshot.failed_items`. -/
structure VarianceSnapshotItem where
  po_price : ℚ
  contract_price : ℚ
  currency : String

/-- The `inputs_snapshot` payloads attached by the contract node. -/
inductive Snapshot where
  | noContractRef (vendor_id : Value) (po_items_count : ℕ)
  | expired (doc_id : Option String) (contract_end_date : Option String) (po_date : Value)
  | priceVariance (doc_id : Option String) (max_variance_allowed : ℚ)
      (failed_items : List (String × VarianceSnapshotItem))

/-- A rule result dict as appended to `ctx["rule_results"]`. -/
structure RuleResult where
  rule_id : String
  description : Option String := Option.none
  hit : Bool
  matched : List MatchedCond := []
  severity : Option String := Option.none
  doc_reference : Option String := Option.none
  ai_reason : Option String := Option.none
  inputs_snapshot : Option Snapshot := Option.none

/-! ## Node 1 — EvaluateRulesNode -/

/-- The skip test of `EvaluateRulesNode.run`: `rule.get("is_active") is
False` or `rule.get("type") in ["llm_semantic_check", "contract_check"]`. -/
def participates (r : Rule) : Bool :=
  !(r.is_active == some false) &&
  !(r.type == some "llm_semantic_check") &&
  !(r.type == some "contract_check")

/-- The matched-condition record built for a condition that compared true. -/
def matchedOf (inputs : Inputs) (c : Condition) : MatchedCond :=
  { field := c.field, operator := c.operator, expected := c.value,
    actual := lookupField inputs c.field }

/-- The per-rule body of `EvaluateRulesNode.run`: `hit` is the
conjunction of `_safe_compare` over the `when` list, and `matched` is
the list of evaluated conditions when `hit` and `[]` otherwise. -/
def evalRule (inputs : Inputs) (r : Rule) : RuleResult :=
  let hit := r.when.all
    (fun c => _safe_compare (lookupField inputs c.field) c.operator c.value)
  { rule_id := r.id, description := r.description, hit := hit,
    matched := if hit then r.when.map (matchedOf inputs) else [] }

/-- Embedding of `EvaluateRulesNode.run`: one result per participating rule, in
policy order. -/
def evaluateRules (policy : Policy) (inputs : Inputs) : List RuleResult :=
  (policy.rules.filter participates).map (evalRule inputs)

/-! ## Node 2 — EvaluateLLMNode -/

/-- The mocked semantic response of `EvaluateLLMNode.run`:
`{"violation": False, "reason": "Items align with vendor nature"}`. -/
def mockViolation : Bool := false

/-- The result built for one `llm_semantic_check` rule: `hit` is the
mocked violation flag and `matched` is always the normalized singleton.
The node reads the description with bracket access
(`rule["description"]`, decision_engine.py line 119), so a semantic rule
without a description raises `KeyError` instead of yielding a result. -/
def semanticResult (r : Rule) : Except String RuleResult :=
  match r.description with
  | Option.none => Except.error "KeyError: description"
  | some desc =>
    let hit := mockViolation
    Except.ok
      { rule_id := r.id, description := some desc, hit := hit,
        ai_reason := some "Items align with vendor nature",
        matched := [{ field := "llm_semantic_check", operator := "violation",
                      expected := Value.bool true, actual := Value.bool hit }] }

/-- The append loop of `EvaluateLLMNode.run` over the semantic rules:
results accumulate in order and the first `KeyError` propagates (the
results already appended to the mutable context are unobservable once
the exception escapes `DecisionEngine.evaluate`). -/
def llmResultsList : List Rule → Except String (List RuleResult)
  | [] => Except.ok []
  | r :: rest =>
    match semanticResult r with
    | Except.error e => Except.error e
    | Except.ok rr =>
      match llmResultsList rest with
      | Except.error e => Except.error e
      | Except.ok rs => Except.ok (rr :: rs)

/-- Embedding of `EvaluateLLMNode.run`: one result per rule with
`type == "llm_semantic_check"` (its `is_active` flag is not consulted),
or the propagated `KeyError` of a description-less semantic rule. -/
def llmResults (policy : Policy) : Except String (List RuleResult) :=
  llmResultsList (policy.rules.filter (fun r => r.type == some "llm_semantic_check"))

/-! ## Node 2.5 — EvaluateContractNode -/

/-- Python truthiness of the optional string `contract_data.get("doc_id")`:
missing and empty string are both falsy. -/
def strTruthy : Option String → Bool
  | some s => !(s == "")
  | Option.none => false

/-- Rendering of an optional SKU inside the f-string `price_{sku}` and
as the snapshot dictionary key (Python renders a missing SKU as `None`). -/
def skuKey : Option String → String
  | some s => s
  | Option.none => "None"

/-- Embedding of `contract_items.get(sku)`: a `None` sku finds no entry in the
string-keyed price map. -/
def lookupSku (cmap : List (String × ContractItem)) : Option String → Option ContractItem
  | some s => alookup cmap s
  | Option.none => Option.none

/-- The last element of a list (the loop variable's value after a
Python `for` loop), `Option.none` for the empty list. -/
def pyLast {α : Type} : List α → Option α
  | [] => Option.none
  | [a] => some a
  | _ :: b :: rest => pyLast (b :: rest)

/-- Python `round(x, 2)` on the embedded rationals: round half to even
at the second decimal, as CPython does for these magnitudes. -/
def round2 (q : ℚ) : ℚ :=
  let x := q * 100
  ((((if x - Int.floor x = (1 : ℚ) / 2 then
    (if Int.floor x % 2 = 0 then Int.floor x else Int.floor x + 1)
  else round x) : ℤ)) : ℚ) / 100

/-- The `NO_CONTRACT_REFERENCE` result (decision_engine.py lines 157-176). -/
def noContractResult (inputs : Inputs) : RuleResult :=
  { rule_id := "NO_CONTRACT_REFERENCE",
    description := some "Item purchased without active contract reference",
    hit := true, severity := some "HIGH",
    matched := [{ field := "contract_id", operator := "exists",
                  expected := Value.str "Valid Contract",
                  actual := Value.str "None/Missing" }],
    inputs_snapshot := some (Snapshot.noContractRef
      (lookupField inputs "vendor_id") inputs.line_items.length) }

/-- The `CONTRACT_EXPIRED` result (decision_engine.py lines 185-205). -/
def expiredResult (inputs : Inputs) (c : Contract) : RuleResult :=
  { rule_id := "CONTRACT_EXPIRED",
    description := some ("Contract " ++ skuKey c.doc_id ++ " is expired or inactive"),
    hit := true, severity := some "CRITICAL", doc_reference := c.doc_id,
    matched := [{ field := "contract_status", operator := "is_active",
                  expected := Value.str "ACTIVE",
                  actual := Value.str "EXPIRED/INACTIVE" }],
    inputs_snapshot := some (Snapshot.expired c.doc_id c.end_date
      (lookupField inputs "created_at")) }

/-- The aggregated `CONTRACT_PRICE_VARIANCE` result (decision_engine.py
lines 257-272) for the single surviving offending item. -/
def varianceResult (c : Contract) (max_variance : ℚ) (sku : Option String)
    (po_price contract_price diff_percent : ℚ) (item : LineItem) : RuleResult :=
  { rule_id := "CONTRACT_PRICE_VARIANCE",
    doc_reference := c.doc_id,
    description := some ("Items Unit price exceeds contract agreement by > "
      ++ toString max_variance ++ "%"),
    hit := true, severity := some "CRITICAL",
    matched := [{ field := "price_" ++ skuKey sku,
                  operator := "variance > " ++ toString max_variance ++ "%",
                  expected := Value.num contract_price,
                  actual := Value.num po_price,
                  variance_pct := some (round2 diff_percent),
                  note := some ("(>" ++ toString (round2 diff_percent) ++ "%)") }],
    inputs_snapshot := some (Snapshot.priceVariance c.doc_id max_variance
      [(skuKey sku, { po_price := po_price, contract_price := contract_price,
                      currency := item.currency.getD "THB" })]) }

/-- Embedding of `EvaluateContractNode.run`, returning the results the node appends.
The embedding reproduces the source's control flow verbatim, including
its indentation slip: the `if item_data :` block at line 223 sits
OUTSIDE the `for item in line_items:` loop, so after the loop only the
final iteration's locals (`sku`, `po_price`, `item_data`) are examined.
Consequently, with `price_check` enabled:
* an empty `line_items` list leaves the local `item_data` unbound and
  the dedented test raises `NameError`;
* a non-empty list evaluates `contract_data["contract_items"]`, raising
  `KeyError` when the contract reference lacks that key;
* otherwise only the LAST line item can contribute a variance hit. -/
def evaluateContract (policy : Policy) (inputs : Inputs) :
    Except String (List RuleResult) :=
  let cfg := policy.contract_compliance
  let max_variance := cfg.max_allowed_variance_pct
  match inputs.contract with
  | Option.none => Except.ok [noContractResult inputs]
  | some c =>
    if !strTruthy c.doc_id then Except.ok [noContractResult inputs]
    else
      let expired : List RuleResult :=
        if cfg.validity_check && !(c.is_active.getD true) then
          [expiredResult inputs c]
        else []
      if !cfg.price_check then Except.ok expired
      else
        match pyLast inputs.line_items with
        | Option.none =>
          Except.error "NameError: name item_data is not defined"
        | some lastItem =>
          match c.contract_items with
          | Option.none => Except.error "KeyError: contract_items"
          | some cmap =>
            let sku := lastItem.sku
            let po_price := lastItem.unit_price.getD 0
            match lookupSku cmap sku with
            | Option.none => Except.ok expired
            | some item_data =>
              match item_data.price with
              | Option.none => Except.ok expired
              | some contract_price =>
                if contract_price > 0 then
                  let diff := po_price - contract_price
                  let diff_percent := diff / contract_price * 100
                  if diff_percent > max_variance then
                    Except.ok (expired ++ [varianceResult c max_variance sku
                      po_price contract_price diff_percent lastItem])
                  else Except.ok expired
                else Except.ok expired

/-! ## Helper — `_derive_required_role` -/

/-- Worker for `pySplit`: split a character list on whitespace runs,
dropping empty fragments (`acc` holds the current token reversed). -/
def splitWsAux : List Char → List Char → List (List Char)
  | [], acc => if acc = [] then [] else [acc.reverse]
  | c :: cs, acc =>
    if c.isWhitespace then
      (if acc = [] then splitWsAux cs [] else acc.reverse :: splitWsAux cs [])
    else splitWsAux cs (c :: acc)

/-- Python `str.split()` with no argument: split on whitespace runs,
dropping empty fragments. -/
def pySplit (s : String) : List String :=
  (splitWsAux s.data []).map (fun cs => String.mk cs)

/-- Decimal-digit-run value, `Option.none` for an empty or non-digit run. -/
def digitsVal (cs : List Char) : Option ℕ :=
  if cs = [] then Option.none
  else
    cs.foldl (fun acc c =>
      match acc with
      | some n => if c.isDigit then some (n * 10 + (c.toNat - 48)) else Option.none
      | Option.none => Option.none) (some 0)

/-- Strip leading and trailing whitespace (Python `float` accepts it). -/
def stripWs (cs : List Char) : List Char :=
  ((cs.dropWhile Char.isWhitespace).reverse.dropWhile Char.isWhitespace).reverse

/-- Split a character list at the dots, keeping empty fragments. -/
def splitDotAux : List Char → List Char → List (List Char)
  | [], acc => [acc.reverse]
  | c :: cs, acc =>
    if c = '.' then acc.reverse :: splitDotAux cs [] else splitDotAux cs (c :: acc)

/-- Python `float(s)` on the plain decimal literals authority conditions
carry: optional sign, digits, optional fractional part, surrounding
whitespace allowed.  `Option.none` models the `ValueError` the source
catches.  (Exponent and inf/nan literals are not modelled.) -/
def parseFloat (s : String) : Option ℚ :=
  let t := stripWs s.data
  let signBody : ℚ × List Char :=
    match t with
    | '-' :: rest => (-1, rest)
    | '+' :: rest => (1, rest)
    | _ => (1, t)
  match splitDotAux signBody.2 [] with
  | [intPart] => (digitsVal intPart).map (fun n => signBody.1 * n)
  | [intPart, fracPart] =>
    if intPart = [] ∧ fracPart = [] then Option.none
    else
      let ip := if intPart = [] then some 0 else digitsVal intPart
      let fp := if fracPart = [] then some 0 else digitsVal fracPart
      match ip, fp with
      | some i, some f =>
        some (signBody.1 * ((i : ℚ) + (f : ℚ) / ((10 : ℚ) ^ fracPart.length)))
      | _, _ => Option.none
  | _ => Option.none

/-- The loop of `_derive_required_role`: walk `authority.rules` in
order; `field, operator, value = condition.split()` raises `ValueError`
when the split does not yield exactly three tokens (the source does not
catch it); a missing input field or a non-numeric value token skips the
entry; the first entry whose comparison is true returns its role;
otherwise the default `"Procurement_Manager"`. -/
def walkAuthority (inputs : Inputs) : List AuthorityRule → Except String String
  | [] => Except.ok "Procurement_Manager"
  | r :: rest =>
    match pySplit r.condition with
    | [field, operator, value] =>
      let actual := lookupField inputs field
      if isNoneV actual then walkAuthority inputs rest
      else
        match parseFloat value with
        | Option.none => walkAuthority inputs rest
        | some q =>
          if _safe_compare actual operator (Value.num q) then
            Except.ok r.required_role
          else walkAuthority inputs rest
    | _ => Except.error "ValueError: not enough values to unpack"

/-- Embedding of `_derive_required_role(policy, inputs)` proper: the
walk over `policy.get("authority", {}).get("rules", [])`. -/
def _derive_required_role (policy : Policy) (inputs : Inputs) :
    Except String String :=
  walkAuthority inputs policy.authority_rules

/-! ## Node 3 — RecommendDecisionNode -/

/-- The `rule_decision_map` built from the policy: pairs `(id, decision)`
for rules whose `id` and `then.decision` are both truthy; a later rule
with the same id overwrites an earlier one (dict semantics), which the
reversed lookup reproduces. -/
def ruleDecisionPairs (policy : Policy) : List (String × String) :=
  policy.rules.filterMap (fun r =>
    match r.then_decision with
    | some d => if !(r.id == "") && !(d == "") then some (r.id, d) else Option.none
    | Option.none => Option.none)

/-- The `rid in rule_decision_map` lookup (last binding wins). -/
def ruleDecisionLookup (policy : Policy) (rid : String) : Option String :=
  alookup (ruleDecisionPairs policy).reverse rid

/-- Python `str.startswith`. -/
def strStartsWith (s p : String) : Bool := p.data.isPrefixOf s.data

/-- The decision contributed by one hit rule id: the policy-declared
`then.decision` when present, otherwise the naming-convention fallback;
ids matching neither contribute nothing. -/
def decisionFor (policy : Policy) (rid : String) : Option String :=
  match ruleDecisionLookup policy rid with
  | some d => some d
  | Option.none =>
    if strStartsWith rid "VENDOR_" || strStartsWith rid "BUDGET_" then some "REJECT"
    else if strStartsWith rid "HIGH_" || strStartsWith rid "POTENTIAL_" then some "ESCALATE"
    else if strStartsWith rid "SLA_" then some "REVIEW"
    else Option.none

/-- The `hit_decisions` list collected over the hit rule ids. -/
def hitDecisions (policy : Policy) (hits : List String) : List String :=
  hits.filterMap (decisionFor policy)

/-- The strict priority resolution `REJECT > ESCALATE > REVIEW > APPROVE`. -/
def resolveDecision (ds : List String) : String :=
  if ds.contains "REJECT" then "REJECT"
  else if ds.contains "ESCALATE" then "ESCALATE"
  else if ds.contains "REVIEW" then "REVIEW"
  else "APPROVE"

/-- The `ctx["recommendation"]` payload. -/
structure Recommendation where
  decision : String
  required_role : String
  reason_codes : List String
  risk_factors : List String

/-- Embedding of `RecommendDecisionNode.run`: priority decision, authority role
(which can propagate `_derive_required_role`'s uncaught `ValueError`),
reason codes and the decision-mirroring risk factors. -/
def recommendDecision (policy : Policy) (inputs : Inputs)
    (hits : List String) : Except String Recommendation :=
  let decision := resolveDecision (hitDecisions policy hits)
  match _derive_required_role policy inputs with
  | Except.error e => Except.error e
  | Except.ok role =>
    Except.ok
      { decision := decision, required_role := role, reason_codes := hits,
        risk_factors :=
          (if decision == "ESCALATE" then ["RULE_ESCALATION"] else []) ++
          (if decision == "REJECT" then ["RULE_REJECTION"] else []) }

/-! ## DecisionEngine.evaluate -/

/-- The value returned by `DecisionEngine.evaluate`. -/
structure EngineResult where
  rule_results : List RuleResult
  recommendation : Recommendation

/-- Embedding of `DecisionEngine.evaluate`: the four nodes in pipeline order
(a `KeyError` in the LLM node propagates before the contract node runs).
`_hit_rules` accumulates the ids of hit results in append order, which
equals filtering the concatenated results by `hit` (every result the
contract node appends has `hit = True`). -/
def DecisionEngine_evaluate (policy : Policy) (inputs : Inputs) :
    Except String EngineResult :=
  let detRes := evaluateRules policy inputs
  match llmResults policy with
  | Except.error e => Except.error e
  | Except.ok semRes =>
    match evaluateContract policy inputs with
    | Except.error e => Except.error e
    | Except.ok conRes =>
      let rule_results := detRes ++ semRes ++ conRes
      let hits := (rule_results.filter (fun rr => rr.hit)).map (fun rr => rr.rule_id)
      match recommendDecision policy inputs hits with
      | Except.error e => Except.error e
      | Except.ok rec =>
        Except.ok { rule_results := rule_results, recommendation := rec }

/-! ## Risk derivation (`app/api/decisions.py`) -/

/-- The `RISK_PRIORITY` list from decisions.py. -/
def RISK_PRIORITY : List String := ["CRITICAL", "HIGH", "MEDIUM", "LOW"]

/-- One collected risk driver. -/
structure RiskDriver where
  rule_id : String
  impact : String
  description : Option String

/-- Embedding of `collect_risk_drivers(policy, rule_results)`: one driver per hit
result whose rule definition (first policy rule with the same id)
declares a truthy `risk_impact`. -/
def collect_risk_drivers (policy : Policy) (rule_results : List RuleResult) :
    List RiskDriver :=
  rule_results.filterMap (fun r =>
    if !r.hit then Option.none
    else
      match policy.rules.find? (fun x => x.id == r.rule_id) with
      | some rd =>
        match rd.risk_impact with
        | some imp =>
          if !(imp == "") then
            some { rule_id := r.rule_id, impact := imp,
                   description := rd.description }
          else Option.none
        | Option.none => Option.none
      | Option.none => Option.none)

/-- Embedding of `derive_risk_from_drivers(drivers)`: the first of `RISK_PRIORITY`
present among the driver impacts, `"LOW"` when there are no drivers or
no recognized impact. -/
def derive_risk_from_drivers (drivers : List RiskDriver) : String :=
  if drivers.isEmpty then "LOW"
  else
    let impacts := drivers.map (fun d => d.impact)
    match RISK_PRIORITY.find? (fun p => impacts.contains p) with
    | some p => p
    | Option.none => "LOW"

/-- The test `high_th is not None and amount >= high_th`. -/
def hiCond (policy : Policy) (amount : ℚ) : Bool :=
  match policy.thresholds_high with
  | some h => decide (amount ≥ h)
  | Option.none => false

/-- The test `med_th is not None and amount >= med_th`. -/
def meCond (policy : Policy) (amount : ℚ) : Bool :=
  match policy.thresholds_medium with
  | some m => decide (amount ≥ m)
  | Option.none => false

/-- The threshold stage of `apply_threshold_safety_net` (the
`high`/`medium` if/elif before the config override). -/
def threshold_stage (current_risk : String) (amount : ℚ) (policy : Policy) : String :=
  if hiCond policy amount then "HIGH"
  else if meCond policy amount && (current_risk == "LOW") then "MEDIUM"
  else current_risk

/-- The config-override stage of `apply_threshold_safety_net`. -/
def override_stage (risk : String) (amount : ℚ) (policy : Policy) : String :=
  match policy.config_high_risk_threshold with
  | some f =>
    if amount > f then policy.config_force_risk_level.getD "HIGH" else risk
  | Option.none => risk

/-- Embedding of `apply_threshold_safety_net(current_risk, amount, policy)`. -/
def apply_threshold_safety_net (current_risk : String) (amount : ℚ)
    (policy : Policy) : String :=
  override_stage (threshold_stage current_risk amount policy) amount policy

/-- Steps 6 of `execute_decision_run`: drivers → base risk → safety net. -/
def deriveRiskLevel (policy : Policy) (rule_results : List RuleResult)
    (amount : ℚ) : String :=
  apply_threshold_safety_net
    (derive_risk_from_drivers (collect_risk_drivers policy rule_results))
    amount policy

/-- Rank of a risk level in the order `LOW < MEDIUM < HIGH < CRITICAL`
(strings outside the vocabulary rank lowest). -/
def riskRank (s : String) : ℕ :=
  if s = "CRITICAL" then 3 else if s = "HIGH" then 2
  else if s = "MEDIUM" then 1 else 0

/-- The spec's four-step risk algorithm, stated from the spec's words
(steps 2-4 of 4.5) over the collected driver impacts: highest-priority
impact under `CRITICAL > HIGH > MEDIUM > LOW` (`LOW` if none), then the
threshold safety net (`amount ≥ high` forces HIGH, else `amount ≥
medium` raises a still-LOW risk to MEDIUM), then the config override
(`amount > high_risk_threshold` forces `force_risk_level`, default
HIGH, which always wins). -/
def specFourStepRisk (impacts : List String) (hiTh meTh forceTh : ℚ)
    (forceLevel : String) (amount : ℚ) : String :=
  let base :=
    if impacts.contains "CRITICAL" then "CRITICAL"
    else if impacts.contains "HIGH" then "HIGH"
    else if impacts.contains "MEDIUM" then "MEDIUM"
    else "LOW"
  let afterNet :=
    if amount ≥ hiTh then "HIGH"
    else if amount ≥ meTh ∧ base = "LOW" then "MEDIUM"
    else base
  if amount > forceTh then forceLevel else afterNet

/-! ## Concrete fixtures for the settled claims -/

/-- A policy with only `price_check` enabled at 5% tolerance. -/
def c1Policy : Policy :=
  { contract_compliance := { price_check := true, max_allowed_variance_pct := 5 } }

/-- Contract CTR-1 with agreed prices X ↦ 100, Y ↦ 100. -/
def c1Contract : Contract :=
  { doc_id := some "CTR-1",
    contract_items := some [("X", { price := some 100 }),
                            ("Y", { price := some 100 })] }

/-- Scenario D shape: the single line item X at unit price 120. -/
def c1InputsSingle : Inputs :=
  { contract := some c1Contract,
    line_items := [{ sku := some "X", unit_price := some 120 }] }

/-- Two line items: X at 120 (20% over contract), then Y at 100 (on
contract).  The offending item is not the last one. -/
def c1InputsTwo : Inputs :=
  { contract := some c1Contract,
    line_items := [{ sku := some "X", unit_price := some 120 },
                   { sku := some "Y", unit_price := some 100 }] }

def c2Policy : Policy :=
  { contract_compliance := { price_check := true, max_allowed_variance_pct := 5 } }

/-- A contract reference with a `doc_id` but no `contract_items` key. -/
def c2InputsNoMap : Inputs :=
  { contract := some { doc_id := some "CTR-7" },
    line_items := [{ sku := some "A", unit_price := some 10 }] }

/-- A complete contract reference but an empty `line_items` list. -/
def c2InputsEmptyItems : Inputs :=
  { contract := some { doc_id := some "CTR-7",
                       contract_items := some [("A", { price := some 10 })] } }

/-- A contract whose price for the purchased SKU is zero. -/
def c2InputsZeroPrice : Inputs :=
  { contract := some { doc_id := some "CTR-7",
                       contract_items := some [("A", { price := some 0 })] },
    line_items := [{ sku := some "A", unit_price := some 10 }] }

/-- A policy whose only hit rule declares a CRITICAL risk impact, with
`thresholds.amount.high = 100`. -/
def c4Policy : Policy :=
  { rules := [{ id := "R1", risk_impact := some "CRITICAL" }],
    thresholds_high := some 100 }

def c4Results : List RuleResult := [{ rule_id := "R1", hit := true }]

/-- Like `c4Policy` but with only a HIGH-impact driver, for the amended
monotonicity statement. -/
def c4AmendedPolicy : Policy :=
  { rules := [{ id := "R1", risk_impact := some "HIGH" }],
    thresholds_high := some 100 }

/-- The semantic rule of the C5 fixtures.  It carries a description:
`EvaluateLLMNode.run` reads `rule["description"]` with bracket access,
so a description-less semantic rule would raise `KeyError` instead of
producing the result the claim is about. -/
def c5SemRule : Rule :=
  { id := "R_SEM", type := some "llm_semantic_check",
    description := some "Items must align with vendor nature" }

/-- A policy holding a single semantic rule. -/
def c5Policy : Policy := { rules := [c5SemRule] }

def c5Inputs : Inputs := {}

/-- The rule result the LLM node produces for `c5SemRule` under the
mocked verdict, spelled out for the C5 witness. -/
def c5SemResult : RuleResult :=
  { rule_id := "R_SEM",
    description := some "Items must align with vendor nature",
    hit := false,
    ai_reason := some "Items align with vendor nature",
    matched := [{ field := "llm_semantic_check", operator := "violation",
                  expected := Value.bool true, actual := Value.bool false }] }

/-- An authority entry whose condition splits into two tokens. -/
def c8PolicyTwoTokens : Policy :=
  { authority_rules := [{ condition := "amount >", required_role := "CFO" }] }

/-- An authority entry whose value token is not numeric. -/
def c8PolicyBadValue : Policy :=
  { authority_rules := [{ condition := "amount > abc", required_role := "CFO" }] }

/-- A well-formed authority entry that matches. -/
def c8PolicyGood : Policy :=
  { authority_rules := [{ condition := "amount > 3", required_role := "CFO" }] }

def c8Inputs : Inputs := { fields := [("amount", Value.num 5)] }

/-- A rule tagged with the type string `"semantic"` (not one of the two
strings the deterministic pass skips). -/
def c9Policy : Policy :=
  { rules := [{ id := "R1", type := some "semantic" }] }

def c9Inputs : Inputs := {}

/-- A policy of one rule, used to state the participation criterion. -/
def singleRulePolicy (r : Rule) : Policy := { rules := [r] }

/-- The normalized `matched` singleton every semantic-rule result
carries under the mocked collaborator verdict (violation = False). -/
def semanticMissMatched : MatchedCond :=
  { field := "llm_semantic_check", operator := "violation",
    expected := Value.bool true, actual := Value.bool false }

/-- The successful engine run on `c5Policy`/`c5Inputs`, extracted for
the C5 witness. -/
def c5RunResult : EngineResult :=
  match DecisionEngine_evaluate c5Policy c5Inputs with
  | Except.ok r => r
  | Except.error _ =>
    { rule_results := [],
      recommendation :=
        { decision := "", required_role := "", reason_codes := [],
          risk_factors := [] } }

/-! ## Claim theorems -/

/-- C1 (code_bug): the spec requires the price-variance check to compute
the variance for EVERY line item whose SKU has a contract price.  The
code's dedented `if item_data :` (decision_engine.py line 223) examines
only the last loop iteration: on Scenario D's single item (X at 120
against contract 100, tolerance 5%) the engine does emit the
`CONTRACT_PRICE_VARIANCE` hit with a 20% variance entry, but with a
second, compliant item Y appended after X the engine emits no variance
hit at all, although X still offends. -/
theorem c1_variance_checks_only_last_item :
    ((evaluateContract c1Policy c1InputsSingle).map (fun l =>
        l.map (fun rr => (rr.rule_id, rr.hit, rr.matched.map (fun m => m.variance_pct)))))
      = Except.ok [("CONTRACT_PRICE_VARIANCE", true, [some 20])] ∧
    evaluateContract c1Policy c1InputsTwo = Except.ok [] := by
  exact ⟨rfl, rfl⟩

/-- C2 (code_bug): the spec says `DecisionEngine.evaluate` never raises;
in particular a contract reference with a `doc_id` but no price map, or
an empty `line_items` list with `price_check` enabled, must complete
without error, and a zero contract price must skip the variance
computation.  The zero-price guard does hold, but the other two shapes
raise: bracket access `contract_data["contract_items"]` raises
`KeyError` when the key is missing, and the dedented `if item_data :`
raises `NameError` when the loop never ran. -/
theorem c2_engine_raises_on_contract_shapes :
    DecisionEngine_evaluate c2Policy c2InputsNoMap
      = Except.error "KeyError: contract_items" ∧
    DecisionEngine_evaluate c2Policy c2InputsEmptyItems
      = Except.error "NameError: name item_data is not defined" ∧
    evaluateContract c2Policy c2InputsZeroPrice = Except.ok [] := by
  exact ⟨rfl, rfl, rfl⟩

/-- C8 (code_bug): the spec says a malformed authority condition is
skipped and the walk never raises.  A condition whose value token is not
numeric is indeed skipped (the `float` call's `ValueError` is caught),
and a matching well-formed entry returns its role; but a condition that
does not split into exactly three tokens raises `ValueError` from the
uncaught tuple unpacking `field, operator, value = condition.split()`. -/
theorem c8_authority_unpack_raises :
    _derive_required_role c8PolicyTwoTokens c8Inputs
      = Except.error "ValueError: not enough values to unpack" ∧
    _derive_required_role c8PolicyBadValue c8Inputs
      = Except.ok "Procurement_Manager" ∧
    _derive_required_role c8PolicyGood c8Inputs = Except.ok "CFO" := by
  exact ⟨rfl, rfl, rfl⟩

/-- C4 counterexample: with a CRITICAL-impact hit rule and
`thresholds.amount.high = 100`, amount 50 derives risk CRITICAL while
the larger amount 100 derives only HIGH (the safety net overwrites
CRITICAL with HIGH), so the derived risk level is not monotone in the
amount. -/
theorem c4_monotonicity_counterexample :
    (50 : ℚ) ≤ 100 ∧
    riskRank (deriveRiskLevel c4Policy c4Results 100)
      < riskRank (deriveRiskLevel c4Policy c4Results 50) := by
  constructor
  · norm_num
  · show riskRank "HIGH" < riskRank "CRITICAL"
    decide

/-- C5 counterexample: a policy holding one `llm_semantic_check` rule
(with a description, so the node's bracket read `rule["description"]`
succeeds and the run completes) produces, via the mocked collaborator,
a semantic result with `hit = false` whose `matched` list is the
non-empty normalized singleton, so `hit == false ⇒ matched == []` fails
for the full result set of `DecisionEngine.evaluate`. -/
theorem c5_miss_with_evidence_counterexample :
    ((DecisionEngine_evaluate c5Policy c5Inputs).map (fun r =>
        r.rule_results.map (fun rr => (rr.rule_id, rr.hit, rr.matched.length))))
      = Except.ok [("R_SEM", false, 1), ("NO_CONTRACT_REFERENCE", true, 1)] := by
  rfl

/-- C9 counterexample: a rule whose `type` tag is the unknown string
`"semantic"` is NOT skipped by the deterministic pass (only
`"llm_semantic_check"` and `"contract_check"` are), so it produces a
RuleResult, contradicting the claim that any non-deterministic type tag
yields none. -/
theorem c9_unknown_type_counterexample :
    (evaluateRules c9Policy c9Inputs).map (fun rr => (rr.rule_id, rr.hit))
      = [("R1", true)] := by
  rfl

/-- C9 amended: the deterministic pass evaluates a rule iff its
`is_active` flag is not the literal `false` and its type tag is neither
`"llm_semantic_check"` nor `"contract_check"`; every other type tag —
unset, `"semantic"`, or any unknown string — participates and yields
exactly its deterministic RuleResult. -/
theorem c9_participation_amended (inputs : Inputs) (r : Rule) :
    evaluateRules (singleRulePolicy r) inputs =
      (if r.is_active = some false ∨ r.type = some "llm_semantic_check"
          ∨ r.type = some "contract_check"
       then [] else [evalRule inputs r]) := by
  by_cases h : r.is_active = some false ∨ r.type = some "llm_semantic_check"
      ∨ r.type = some "contract_check"
  · rw [if_pos h]
    have hp : participates r = false := by
      unfold participates
      rcases h with h | h | h <;> simp [h]
    simp [evaluateRules, singleRulePolicy, List.filter, hp]
  · rw [if_neg h]
    push_neg at h
    have hp : participates r = true := by
      unfold participates
      simp [h.1, h.2.1, h.2.2]
    simp [evaluateRules, singleRulePolicy, List.filter, hp]

/-- C7: the comparator is total and fail-closed — `compare(None, op, x)`
is `False` for every operator string; any operator outside the nine
recognized ones yields `False`; and a numeric/string operand mix under
any ordering operator yields `False` (the caught `TypeError`) instead of
raising.  Totality itself is by construction: `_safe_compare` is a total
function. -/
theorem c7_compare_fail_closed :
    (∀ (op : String) (e : Value), _safe_compare Value.none op e = false) ∧
    (∀ (a : Value) (op : String) (e : Value), op ∉ knownOperators →
      _safe_compare a op e = false) ∧
    (∀ (q : ℚ) (s : String) (op : String), op ∈ orderOperators →
      _safe_compare (Value.num q) op (Value.str s) = false ∧
      _safe_compare (Value.str s) op (Value.num q) = false) := by
  refine ⟨?_, ?_, ?_⟩
  · intro op e
    simp [_safe_compare, isNoneV]
  · intro a op e hop
    simp only [knownOperators, List.mem_cons, List.not_mem_nil, or_false,
      not_or] at hop
    obtain ⟨n1, n2, n3, n4, n5, n6, n7, n8, n9⟩ := hop
    by_cases ha : isNoneV a = true
    · simp [_safe_compare, ha]
    · simp [_safe_compare, ha, beq_iff_eq, n1, n2, n3, n4, n5, n6, n7, n8, n9]
  · intro q s op hop
    simp only [orderOperators, List.mem_cons, List.not_mem_nil, or_false] at hop
    rcases hop with rfl | rfl | rfl | rfl <;> exact ⟨rfl, rfl⟩

/-- Witness for C7 at concrete inputs: `None` actual, an unrecognized
operator, and a numeric/string mix under `>`. -/
theorem c7_compare_fail_closed_witness :
    _safe_compare Value.none ">" (Value.num 5) = false ∧
    _safe_compare (Value.num 3) "unknown_op" (Value.num 1) = false ∧
    _safe_compare (Value.num 3) ">" (Value.str "a") = false :=
  ⟨c7_compare_fail_closed.1 ">" (Value.num 5),
   c7_compare_fail_closed.2.1 (Value.num 3) "unknown_op" (Value.num 1) (by decide),
   (c7_compare_fail_closed.2.2 3 "a" ">" (by decide)).1⟩

/-- A deterministic rule result that missed carries no matched
conditions (`matched if hit else []`). -/
lemma evaluateRules_miss (p : Policy) (i : Inputs) (rr : RuleResult)
    (hm : rr ∈ evaluateRules p i) (hh : rr.hit = false) : rr.matched = [] := by
  unfold evaluateRules at hm
  obtain ⟨r, _, rfl⟩ := List.mem_map.mp hm
  unfold evalRule at hh ⊢
  dsimp only at hh ⊢
  simp [hh]

/-- Every result of a successful LLM-node pass has the mocked miss
verdict and the normalized `matched` singleton (a description-less
semantic rule never reaches this case: it raises `KeyError`). -/
lemma llmResultsList_shape (l : List Rule) (rs : List RuleResult)
    (h : llmResultsList l = Except.ok rs) (rr : RuleResult) (hm : rr ∈ rs) :
    rr.hit = false ∧ rr.matched = [semanticMissMatched] := by
  induction l generalizing rs with
  | nil =>
    injection h with h
    subst h
    cases hm
  | cons r rest ih =>
    unfold llmResultsList at h
    split at h
    · exact Except.noConfusion h
    · rename_i rr0 hsem
      split at h
      · exact Except.noConfusion h
      · rename_i rs0 hrest
        injection h with h
        subst h
        cases hm with
        | head =>
          unfold semanticResult at hsem
          split at hsem
          · exact Except.noConfusion hsem
          · injection hsem with hsem
            subst hsem
            exact ⟨rfl, rfl⟩
        | tail _ hm => exact ih rs0 hrest hm

/-- Every result the contract node appends is a hit. -/
lemma evaluateContract_all_hit (p : Policy) (i : Inputs) (l : List RuleResult)
    (h : evaluateContract p i = Except.ok l) (rr : RuleResult) (hm : rr ∈ l) :
    rr.hit = true := by
  unfold evaluateContract at h
  dsimp only at h
  iterate 16 (all_goals (try split at h))
  all_goals
    first
    | exact Except.noConfusion h
    | (injection h with hL
       subst hL
       simp only [List.mem_append, List.mem_singleton, List.mem_cons,
         List.not_mem_nil, or_false, false_or] at hm
       all_goals
         first
         | (subst hm; rfl)
         | (rcases hm with rfl | rfl <;> rfl))

/-- C5 amended: in every successful engine run, a rule result with
`hit = false` carries either no matched conditions (deterministic
results; contract results are always hits) or exactly the normalized
semantic singleton, which the LLM node attaches to its results
regardless of the verdict. -/
theorem c5_miss_no_evidence_amended (policy : Policy) (inputs : Inputs)
    (res : EngineResult) (h : DecisionEngine_evaluate policy inputs = Except.ok res)
    (rr : RuleResult) (hm : rr ∈ res.rule_results) (hh : rr.hit = false) :
    rr.matched = [] ∨ rr.matched = [semanticMissMatched] := by
  unfold DecisionEngine_evaluate at h
  split at h
  · exact Except.noConfusion h
  · rename_i semRes hsem
    split at h
    · exact Except.noConfusion h
    · rename_i conRes hcon
      dsimp only at h
      split at h
      · exact Except.noConfusion h
      · injection h with hR
        subst hR
        dsimp only at hm
        rcases List.mem_append.mp hm with hm2 | hm3
        · rcases List.mem_append.mp hm2 with hdet | hsm
          · exact Or.inl (evaluateRules_miss policy inputs rr hdet hh)
          · unfold llmResults at hsem
            exact Or.inr (llmResultsList_shape _ semRes hsem rr hsm).2
        · exact absurd (evaluateContract_all_hit policy inputs conRes hcon rr hm3)
            (by rw [hh]; exact Bool.false_ne_true)

/-- Witness for C5 amended, applied to the semantic result of the
`c5Policy` run. -/
theorem c5_miss_no_evidence_witness :
    c5SemResult.matched = [] ∨ c5SemResult.matched = [semanticMissMatched] :=
  c5_miss_no_evidence_amended c5Policy c5Inputs c5RunResult rfl
    c5SemResult (List.Mem.head _) rfl

/-- For strings, `List.contains` agrees with membership. -/
lemma containsStr_iff (l : List String) (x : String) :
    l.contains x = true ↔ x ∈ l := by
  rw [List.contains_iff_exists_mem_beq]
  constructor
  · rintro ⟨b, hb, he⟩
    rw [eq_of_beq he]
    exact hb
  · intro h
    exact ⟨x, h, by simp⟩

/-- The resolver `resolveDecision` returns `"APPROVE"` exactly when none of the three
higher-priority decisions occur among the collected hit decisions. -/
lemma resolveDecision_eq_approve_iff (ds : List String) :
    resolveDecision ds = "APPROVE" ↔
      ¬ "REJECT" ∈ ds ∧ ¬ "ESCALATE" ∈ ds ∧ ¬ "REVIEW" ∈ ds := by
  unfold resolveDecision
  split_ifs with h1 h2 h3
  · constructor
    · intro h; exact absurd h (by decide)
    · intro h; exact absurd ((containsStr_iff _ _).mp h1) h.1
  · constructor
    · intro h; exact absurd h (by decide)
    · intro h; exact absurd ((containsStr_iff _ _).mp h2) h.2.1
  · constructor
    · intro h; exact absurd h (by decide)
    · intro h; exact absurd ((containsStr_iff _ _).mp h3) h.2.2
  · constructor
    · intro _
      refine ⟨?_, ?_, ?_⟩
      · intro hm; exact h1 ((containsStr_iff _ _).mpr hm)
      · intro hm; exact h2 ((containsStr_iff _ _).mpr hm)
      · intro hm; exact h3 ((containsStr_iff _ _).mpr hm)
    · intro _; rfl

/-- C6: the final decision is resolved by strict priority
`REJECT > ESCALATE > REVIEW > APPROVE` over the decisions mapped from
the hit rules (policy `then.decision` first, naming-convention fallback
otherwise — both inside `decisionFor`): a single hit mapping to REJECT
forces REJECT, and APPROVE is returned exactly when no hit maps to any
of the three higher decisions. -/
theorem c6_decision_priority (policy : Policy) (hits : List String) :
    ((∃ rid ∈ hits, decisionFor policy rid = some "REJECT") →
      resolveDecision (hitDecisions policy hits) = "REJECT") ∧
    (resolveDecision (hitDecisions policy hits) = "APPROVE" ↔
      ∀ rid ∈ hits, decisionFor policy rid ≠ some "REJECT" ∧
        decisionFor policy rid ≠ some "ESCALATE" ∧
        decisionFor policy rid ≠ some "REVIEW") := by
  have key : ∀ d : String, ¬ (d ∈ hitDecisions policy hits) ↔
      ∀ rid ∈ hits, decisionFor policy rid ≠ some d := by
    intro d
    rw [hitDecisions]
    simp [List.mem_filterMap]
  constructor
  · intro hex
    have hmem : "REJECT" ∈ hitDecisions policy hits := by
      rw [hitDecisions]
      exact List.mem_filterMap.mpr (by simpa using hex)
    unfold resolveDecision
    rw [if_pos ((containsStr_iff _ _).mpr hmem)]
  · rw [resolveDecision_eq_approve_iff]
    constructor
    · intro h rid hrid
      exact ⟨(key _).mp h.1 rid hrid, (key _).mp h.2.1 rid hrid,
        (key _).mp h.2.2 rid hrid⟩
    · intro h
      exact ⟨(key _).mpr (fun rid hr => (h rid hr).1),
        (key _).mpr (fun rid hr => (h rid hr).2.1),
        (key _).mpr (fun rid hr => (h rid hr).2.2)⟩

/-- Witness for C6: a hit on `VENDOR_BLACKLIST_CHECK` (naming-convention
REJECT) forces the REJECT decision under the empty policy. -/
theorem c6_decision_priority_witness :
    resolveDecision (hitDecisions {} ["VENDOR_BLACKLIST_CHECK"]) = "REJECT" :=
  (c6_decision_priority {} ["VENDOR_BLACKLIST_CHECK"]).1
    ⟨"VENDOR_BLACKLIST_CHECK", by decide, by decide⟩

/-- C10: when every hit rule id is one of the three contract-compliance
pseudo-rules and the policy's rules declare no `then.decision` for them,
the recommendation is APPROVE — the ids match no naming-convention
prefix, so they contribute no decision — while they still appear in
`reason_codes`. -/
theorem c10_contract_pseudo_rules_approve (policy : Policy) (inputs : Inputs)
    (hits : List String) (role : String)
    (h1 : ∀ rid ∈ hits, rid = "NO_CONTRACT_REFERENCE" ∨ rid = "CONTRACT_EXPIRED"
        ∨ rid = "CONTRACT_PRICE_VARIANCE")
    (h2 : ∀ rid ∈ hits, ruleDecisionLookup policy rid = Option.none)
    (h3 : _derive_required_role policy inputs = Except.ok role) :
    recommendDecision policy inputs hits = Except.ok
      { decision := "APPROVE", required_role := role, reason_codes := hits,
        risk_factors := [] } := by
  have hds : hitDecisions policy hits = [] := by
    rw [hitDecisions, List.filterMap_eq_nil_iff]
    intro rid hrid
    have hl := h2 rid hrid
    rcases h1 rid hrid with rfl | rfl | rfl <;>
      · simp only [decisionFor, hl]
        decide
  unfold recommendDecision
  rw [hds, h3]
  rfl

/-- Any risk string other than `"CRITICAL"` ranks at most `HIGH`. -/
lemma riskRank_le_two (s : String) (h : s ≠ "CRITICAL") : riskRank s ≤ 2 := by
  unfold riskRank
  rw [if_neg h]
  split_ifs <;> omega

/-- The high-threshold test is monotone in the amount. -/
lemma hiCond_mono (p : Policy) {a1 a2 : ℚ} (h12 : a1 ≤ a2)
    (h1 : hiCond p a1 = true) : hiCond p a2 = true := by
  unfold hiCond at h1 ⊢
  rcases hh : p.thresholds_high with _ | hi
  · rw [hh] at h1
    simp at h1
  · rw [hh] at h1
    simp only [decide_eq_true_eq] at h1 ⊢
    linarith

/-- The medium-threshold test is monotone in the amount. -/
lemma meCond_mono (p : Policy) {a1 a2 : ℚ} (h12 : a1 ≤ a2)
    (h1 : meCond p a1 = true) : meCond p a2 = true := by
  unfold meCond at h1 ⊢
  rcases hm : p.thresholds_medium with _ | me
  · rw [hm] at h1
    simp at h1
  · rw [hm] at h1
    simp only [decide_eq_true_eq] at h1 ⊢
    linarith

/-- The stage `override_stage` with no configured override threshold is the identity. -/
lemma override_stage_none (risk : String) (a : ℚ) (policy : Policy)
    (h : policy.config_high_risk_threshold = Option.none) :
    override_stage risk a policy = risk := by
  unfold override_stage
  rw [h]

/-- The stage `override_stage` with a configured override threshold `f`. -/
lemma override_stage_some (risk : String) (a : ℚ) (policy : Policy) (f : ℚ)
    (h : policy.config_high_risk_threshold = some f) :
    override_stage risk a policy =
      (if a > f then policy.config_force_risk_level.getD "HIGH" else risk) := by
  unfold override_stage
  rw [h]

/-- The threshold stage never exceeds rank `HIGH` when the incoming
risk does not. -/
lemma threshold_stage_rank_le (base : String) (a : ℚ) (p : Policy)
    (hb : riskRank base ≤ 2) : riskRank (threshold_stage base a p) ≤ 2 := by
  unfold threshold_stage
  split_ifs
  · decide
  · decide
  · exact hb

/-- The threshold stage never lowers a risk of rank at most `HIGH`. -/
lemma threshold_stage_rank_ge (base : String) (a : ℚ) (p : Policy)
    (hb : riskRank base ≤ 2) : riskRank base ≤ riskRank (threshold_stage base a p) := by
  unfold threshold_stage
  split_ifs with h1 h2
  · have e : riskRank "HIGH" = 2 := rfl
    rw [e]
    exact hb
  · simp only [Bool.and_eq_true, beq_iff_eq] at h2
    rw [h2.2]
    decide
  · exact le_refl _

/-- The threshold stage is monotone in the amount for a base risk of
rank at most `HIGH`. -/
lemma threshold_stage_mono (base : String) (a1 a2 : ℚ) (p : Policy)
    (hb : riskRank base ≤ 2) (h12 : a1 ≤ a2) :
    riskRank (threshold_stage base a1 p) ≤ riskRank (threshold_stage base a2 p) := by
  by_cases h1 : hiCond p a1 = true
  · unfold threshold_stage
    rw [if_pos h1, if_pos (hiCond_mono p h12 h1)]
  · by_cases h2 : (meCond p a1 && (base == "LOW")) = true
    · unfold threshold_stage
      rw [if_neg h1, if_pos h2]
      by_cases h3 : hiCond p a2 = true
      · rw [if_pos h3]
        decide
      · rw [if_neg h3, if_pos]
        simp only [Bool.and_eq_true] at h2 ⊢
        exact ⟨meCond_mono p h12 h2.1, h2.2⟩
    · have e1 : threshold_stage base a1 p = base := by
        unfold threshold_stage
        rw [if_neg h1, if_neg h2]
      rw [e1]
      exact threshold_stage_rank_ge base a2 p hb

/-- C4 amended: holding the policy and the rule-hit set fixed, the
derived risk level is monotone in the amount PROVIDED the base risk
derived from the drivers is not CRITICAL and `config.force_risk_level`
(default HIGH) is HIGH or CRITICAL.  The counterexample shows the
proviso is necessary: a CRITICAL base is overwritten to HIGH once the
amount crosses `thresholds.amount.high` (and symmetrically a low
`force_risk_level` overwrites any higher risk past the override
threshold). -/
theorem c4_risk_monotone_amended (policy : Policy) (rs : List RuleResult)
    (a1 a2 : ℚ) (h12 : a1 ≤ a2)
    (hbase : derive_risk_from_drivers (collect_risk_drivers policy rs) ≠ "CRITICAL")
    (hforce : policy.config_force_risk_level.getD "HIGH" = "HIGH" ∨
      policy.config_force_risk_level.getD "HIGH" = "CRITICAL") :
    riskRank (deriveRiskLevel policy rs a1) ≤ riskRank (deriveRiskLevel policy rs a2) := by
  have hb : riskRank (derive_risk_from_drivers (collect_risk_drivers policy rs)) ≤ 2 :=
    riskRank_le_two _ hbase
  have hfr : 2 ≤ riskRank (policy.config_force_risk_level.getD "HIGH") := by
    rcases hforce with h | h <;> rw [h] <;> decide
  unfold deriveRiskLevel apply_threshold_safety_net
  rcases hf : policy.config_high_risk_threshold with _ | f
  · rw [override_stage_none _ _ _ hf, override_stage_none _ _ _ hf]
    exact threshold_stage_mono _ a1 a2 policy hb h12
  · rw [override_stage_some _ _ _ _ hf, override_stage_some _ _ _ _ hf]
    by_cases hgt1 : a1 > f
    · rw [if_pos hgt1, if_pos (lt_of_lt_of_le hgt1 h12)]
    · rw [if_neg hgt1]
      by_cases hgt2 : a2 > f
      · rw [if_pos hgt2]
        exact le_trans (threshold_stage_rank_le _ a1 policy hb) hfr
      · rw [if_neg hgt2]
        exact threshold_stage_mono _ a1 a2 policy hb h12

/-- Witness for C4 amended: with a HIGH-impact driver (base risk HIGH,
not CRITICAL) and the default force level, risk is monotone from amount
50 to 100. -/
theorem c4_risk_monotone_amended_witness :
    riskRank (deriveRiskLevel c4AmendedPolicy c4Results 50)
      ≤ riskRank (deriveRiskLevel c4AmendedPolicy c4Results 100) :=
  c4_risk_monotone_amended c4AmendedPolicy c4Results 50 100 (by norm_num)
    (by decide) (Or.inl rfl)

/-- The function `derive_risk_from_drivers` equals the priority if-chain over the
driver impacts. -/
lemma derive_risk_eq (ds : List RiskDriver) :
    derive_risk_from_drivers ds =
      (if (ds.map (fun d => d.impact)).contains "CRITICAL" then "CRITICAL"
       else if (ds.map (fun d => d.impact)).contains "HIGH" then "HIGH"
       else if (ds.map (fun d => d.impact)).contains "MEDIUM" then "MEDIUM"
       else "LOW") := by
  cases ds with
  | nil => rfl
  | cons d rest =>
    have hL : derive_risk_from_drivers (d :: rest) =
        (match List.find?
            (fun p => ((d :: rest).map (fun x => x.impact)).contains p)
            RISK_PRIORITY with
         | some p => p
         | Option.none => "LOW") := rfl
    rw [hL, RISK_PRIORITY]
    by_cases hc : ((d :: rest).map (fun x => x.impact)).contains "CRITICAL" = true
    · rw [List.find?_cons_of_pos _ hc, if_pos hc]
    · rw [List.find?_cons_of_neg _ hc, if_neg hc]
      by_cases hh : ((d :: rest).map (fun x => x.impact)).contains "HIGH" = true
      · rw [List.find?_cons_of_pos _ hh, if_pos hh]
      · rw [List.find?_cons_of_neg _ hh, if_neg hh]
        by_cases hm : ((d :: rest).map (fun x => x.impact)).contains "MEDIUM" = true
        · rw [List.find?_cons_of_pos _ hm, if_pos hm]
        · rw [List.find?_cons_of_neg _ hm, if_neg hm]
          by_cases hl : ((d :: rest).map (fun x => x.impact)).contains "LOW" = true
          · rw [List.find?_cons_of_pos _ hl]
          · rw [List.find?_cons_of_neg _ hl]
            rfl

/-- C3: for every policy with all three numeric thresholds configured,
the derived risk level of `execute_decision_run` (driver collection,
base risk, threshold safety net, config override) equals the spec's
four-step algorithm applied to the collected driver impacts. -/
theorem c3_risk_four_step (policy : Policy) (rs : List RuleResult)
    (amount hi me fo : ℚ)
    (h1 : policy.thresholds_high = some hi)
    (h2 : policy.thresholds_medium = some me)
    (h3 : policy.config_high_risk_threshold = some fo) :
    deriveRiskLevel policy rs amount =
      specFourStepRisk ((collect_risk_drivers policy rs).map (fun d => d.impact))
        hi me fo (policy.config_force_risk_level.getD "HIGH") amount := by
  unfold deriveRiskLevel apply_threshold_safety_net specFourStepRisk
    threshold_stage override_stage hiCond meCond
  rw [derive_risk_eq]
  simp only [h1, h2, h3, decide_eq_true_eq, Bool.and_eq_true, beq_iff_eq]

/-- Witness for C3 at a concrete policy (thresholds 100000/500000,
override limit 200000) and amount 387500. -/
theorem c3_risk_four_step_witness :
    deriveRiskLevel
      { thresholds_high := some 500000, thresholds_medium := some 100000,
        config_high_risk_threshold := some 200000 } [] 387500 =
      specFourStepRisk [] 500000 100000 200000 "HIGH" 387500 :=
  c3_risk_four_step _ [] 387500 500000 100000 200000 rfl rfl rfl

/-- Witness for C10: both variance and no-reference pseudo-hits under
the empty policy recommend APPROVE with the two reason codes. -/
theorem c10_contract_pseudo_rules_approve_witness :
    recommendDecision {} {} ["NO_CONTRACT_REFERENCE", "CONTRACT_PRICE_VARIANCE"]
      = Except.ok
        { decision := "APPROVE", required_role := "Procurement_Manager",
          reason_codes := ["NO_CONTRACT_REFERENCE", "CONTRACT_PRICE_VARIANCE"],
          risk_factors := [] } :=
  c10_contract_pseudo_rules_approve {} {}
    ["NO_CONTRACT_REFERENCE", "CONTRACT_PRICE_VARIANCE"] "Procurement_Manager"
    (by decide) (by decide) rfl

end DCC
